import Mathlib

/-!
Verification development for the GNSSLoggerToRinex converter.

The two scripts `android_to_rinex_2.11.py` and `android_to_rinex_3.03.py`
share the clock arithmetic; the measurement pipeline of the 3.03 variant is
embedded in full below.  Real-valued Python arithmetic is embedded over `ℚ`
(the scripts only add, subtract, multiply, divide and floor), stderr output
is embedded as an explicit list of warning tags, and the uncaught Python
exceptions reachable from the per-record processing (`TypeError` on a missing
carrier frequency, `IndexError` on the GLONASS channel table) are embedded as
an explicit error outcome.
-/

namespace AndroidRinex

/-- Source `SPEED_OF_LIGHT = 299792458.0` [m/s]. -/
def SPEED_OF_LIGHT : ℚ := 299792458

/-- Source `GPS_WEEKSECS = 604800`, number of seconds in a week. -/
def GPS_WEEKSECS : ℚ := 604800

/-- Source `NS_TO_S = 1.0e-9`. -/
def NS_TO_S : ℚ := 1 / 1000000000

/-- Source `S_TO_NS = 1.0e9`. -/
def S_TO_NS : ℚ := 1000000000

/-- Source `NUM_NANOSEC_WEEK = 604800e9`. -/
def NUM_NANOSEC_WEEK : ℚ := 604800 * 1000000000

/-- Source `NUM_NANOSEC_DAY = 86400e9`. -/
def NUM_NANOSEC_DAY : ℚ := 86400 * 1000000000

/-- Source `NUM_NANOSEC_100MILL = 1e8`. -/
def NUM_NANOSEC_100MILL : ℚ := 100000000

/-- Source `MAX_VALUE = 8388608`, the carrier-phase roll-over modulus. -/
def MAX_VALUE : ℚ := 8388608

/-- Source `STATE_CODE_LOCK = 0x00000001`. -/
def STATE_CODE_LOCK : ℕ := 1

/-- Source `STATE_TOW_DECODED = 0x00000008`. -/
def STATE_TOW_DECODED : ℕ := 8

/-- Source `ADR_STATE_VALID = 0x00000001`. -/
def ADR_STATE_VALID : ℕ := 1

/-- Source `CONSTELLATION_GPS = 1`. -/
def CONSTELLATION_GPS : ℤ := 1

/-- Source `CONSTELLATION_SBAS = 2`. -/
def CONSTELLATION_SBAS : ℤ := 2

/-- Source `CONSTELLATION_GLONASS = 3`. -/
def CONSTELLATION_GLONASS : ℤ := 3

/-- Source `CONSTELLATION_QZSS = 4`. -/
def CONSTELLATION_QZSS : ℤ := 4

/-- Source `CONSTELLATION_BEIDOU = 5`. -/
def CONSTELLATION_BEIDOU : ℤ := 5

/-- Source `CONSTELLATION_GALILEO = 6`. -/
def CONSTELLATION_GALILEO : ℤ := 6

/-- Source `GPS_L1_FREQ = 1575.42e6`. -/
def GPS_L1_FREQ : ℚ := 1575420000

/-- Source `GPS_L1_WAVELENGTH = SPEED_OF_LIGHT / GPS_L1_FREQ`. -/
def GPS_L1_WAVELENGTH : ℚ := SPEED_OF_LIGHT / GPS_L1_FREQ

/-- Source `GPS_L2_FREQ = 1227.6e6`. -/
def GPS_L2_FREQ : ℚ := 1227600000

/-- Source `GPS_L2_WAVELENGTH = SPEED_OF_LIGHT / GPS_L2_FREQ`. -/
def GPS_L2_WAVELENGTH : ℚ := SPEED_OF_LIGHT / GPS_L2_FREQ

/-- Source `GPS_L5_FREQ = 1176.45e6`. -/
def GPS_L5_FREQ : ℚ := 1176450000

/-- Source `GPS_L5_WAVELENGTH = SPEED_OF_LIGHT / GPS_L5_FREQ`. -/
def GPS_L5_WAVELENGTH : ℚ := SPEED_OF_LIGHT / GPS_L5_FREQ

/-- Source `BDS_L1_FREQ = 1561.098e6`. -/
def BDS_L1_FREQ : ℚ := 1561098000

/-- Source `BDS_L1_WAVELENGTH = SPEED_OF_LIGHT / BDS_L1_FREQ`. -/
def BDS_L1_WAVELENGTH : ℚ := SPEED_OF_LIGHT / BDS_L1_FREQ

/-- Source `BDS_L2_FREQ = 1207.14e6`. -/
def BDS_L2_FREQ : ℚ := 1207140000

/-- Source `BDS_L2_WAVELENGTH = SPEED_OF_LIGHT / BDS_L2_FREQ`. -/
def BDS_L2_WAVELENGTH : ℚ := SPEED_OF_LIGHT / BDS_L2_FREQ

/-- Source `BDS_L3_FREQ = 1268.52e6`. -/
def BDS_L3_FREQ : ℚ := 1268520000

/-- Source `BDS_L3_WAVELENGTH = SPEED_OF_LIGHT / BDS_L3_FREQ`. -/
def BDS_L3_WAVELENGTH : ℚ := SPEED_OF_LIGHT / BDS_L3_FREQ

/-- Source `GAL_E1_FREQ = 1575.42e6`. -/
def GAL_E1_FREQ : ℚ := 1575420000

/-- Source `GAL_E1_WAVELENGTH = SPEED_OF_LIGHT / GAL_E1_FREQ`. -/
def GAL_E1_WAVELENGTH : ℚ := SPEED_OF_LIGHT / GAL_E1_FREQ

/-- Source `GAL_E5A_FREQ = 1176.45e6`. -/
def GAL_E5A_FREQ : ℚ := 1176450000

/-- Source `GAL_E5A_WAVELENGTH = SPEED_OF_LIGHT / GAL_E5A_FREQ`. -/
def GAL_E5A_WAVELENGTH : ℚ := SPEED_OF_LIGHT / GAL_E5A_FREQ

/-- Source `GAL_E5B_FREQ = 1207.14e6`. -/
def GAL_E5B_FREQ : ℚ := 1207140000

/-- Source `GAL_E5B_WAVELENGTH = SPEED_OF_LIGHT / GAL_E5B_FREQ`. -/
def GAL_E5B_WAVELENGTH : ℚ := SPEED_OF_LIGHT / GAL_E5B_FREQ

/-- Source `GAL_E6_FREQ = 1278.75e6`. -/
def GAL_E6_FREQ : ℚ := 1278750000

/-- Source `GAL_E6_WAVELENGTH = SPEED_OF_LIGHT / GAL_E6_FREQ`. -/
def GAL_E6_WAVELENGTH : ℚ := SPEED_OF_LIGHT / GAL_E6_FREQ

/-- Source `GLO_L1_FREQ_BASE = 1602000000.0`. -/
def GLO_L1_FREQ_BASE : ℚ := 1602000000

/-- Source `GLO_L2_FREQ_BASE = 1246000000.0`. -/
def GLO_L2_FREQ_BASE : ℚ := 1246000000

/-- Source `GLO_L1_FREQ_STEP = 562500.0`. -/
def GLO_L1_FREQ_STEP : ℚ := 562500

/-- Source `GLO_L2_FREQ_STEP = 437500.0`. -/
def GLO_L2_FREQ_STEP : ℚ := 437500

/-- The fixed 24-entry GLONASS frequency-channel table `GLN_LIST`. -/
def GLN_LIST : List ℤ :=
  [1, -4, 5, 6, 1, -4, 5, 6, -2, -7, 0, -1, -2, -7, 0, -1, -6, -3, 3, 2, 4, -3, 3, 2]

/-- Source `get_glo_L1(chel)`: wavelength of the GLONASS L1 band for channel `chel`. -/
def get_glo_L1 (chel : ℤ) : ℚ :=
  SPEED_OF_LIGHT / (GLO_L1_FREQ_BASE + (chel : ℚ) * GLO_L1_FREQ_STEP)

/-- Source `get_glo_L2(chel)`: wavelength of the GLONASS L2 band for channel `chel`. -/
def get_glo_L2 (chel : ℤ) : ℚ :=
  SPEED_OF_LIGHT / (GLO_L2_FREQ_BASE + (chel : ℚ) * GLO_L2_FREQ_STEP)

/-- Source `get_correction_adr(psr, adr_cycles, wave_length)` exactly as in the source:
the ratio is biased by a half unit toward its sign but is never truncated to
an integer before multiplying back by `MAX_VALUE`. -/
def get_correction_adr (psr adr_cycles wave_length : ℚ) : ℚ :=
  let adr_rolls := (psr / wave_length + adr_cycles) / MAX_VALUE
  let adr_rolls := if adr_rolls ≤ 0 then adr_rolls - 1/2 else adr_rolls + 1/2;
  -(adr_cycles - MAX_VALUE * adr_rolls)

/-- Modelled from the spec: the ambiguity correction as the spec words it,
`cycles = -(rawCycles - MAX_VALUE * round((psr/wl + rawCycles) / MAX_VALUE))`
with the wrap count rounded (half away from zero) to an integer. -/
def get_correction_adr_spec (psr adr_cycles wave_length : ℚ) : ℚ :=
  let quot := (psr / wave_length + adr_cycles) / MAX_VALUE
  let adr_rolls : ℤ := if quot ≤ 0 then ⌈quot - 1/2⌉ else ⌊quot + 1/2⌋;
  -(adr_cycles - MAX_VALUE * (adr_rolls : ℚ))

/-- Week-rollover guard on the travel time: `if tau < 0: tau += GPS_WEEKSECS`. -/
def wrapTau (tau : ℚ) : ℚ :=
  if tau < 0 then tau + GPS_WEEKSECS else tau

/-- Python `int()` applied to a rational: truncation toward zero. -/
def pyInt (q : ℚ) : ℤ :=
  if 0 ≤ q then ⌊q⌋ else ⌈q⌉

/-- Source `check_state(state)`: true iff both sync bits are set (the source raises
an exception, caught by the caller, when either bit is missing). -/
def checkState (state : ℕ) : Bool :=
  !(state &&& STATE_CODE_LOCK == 0) && !(state &&& STATE_TOW_DECODED == 0)

/-- Source `check_adr_state(state)`: true iff the `ADR_STATE_VALID` bit is set. -/
def checkAdrState (state : ℕ) : Bool :=
  !(state &&& ADR_STATE_VALID == 0)

/-- Python list indexing semantics: nonnegative indices from the front,
negative indices from the back, `none` for an `IndexError`. -/
def pyGet (l : List ℤ) (i : ℤ) : Option ℤ :=
  let j : ℤ := if i < 0 then (l.length : ℤ) + i else i
  if 0 ≤ j then l.get? j.toNat else none

/-- One parsed `Raw` measurement line (the fields the pipeline reads). -/
structure RawMeas where
  State : ℕ
  FullBiasNanos : ℚ
  TimeNanos : ℚ
  BiasNanos : ℚ
  TimeOffsetNanos : ℚ
  LeapSecond : Option ℤ
  ConstellationType : ℤ
  Svid : ℤ
  CarrierFrequencyHz : Option ℚ
  ReceivedSvTimeNanos : ℚ
  AccumulatedDeltaRangeMeters : ℚ
  AccumulatedDeltaRangeState : ℕ
  PseudorangeRateMetersPerSecond : ℚ
  Cn0DbHz : ℚ
deriving DecidableEq, Repr

/-- Warnings written to stderr, embedded as tags. -/
inductive Warning
  | invalidState
  | glonassFSN
  | constellationNotSupported
  | constellationUnknown
  | invalidAdrState
  | repeatedEntries
deriving DecidableEq, Repr

/-- Source `gpsweek = floor(-fullbiasnanos * NS_TO_S / GPS_WEEKSECS)`. -/
def gpsweek (fbn : ℚ) : ℤ :=
  ⌊-fbn * NS_TO_S / GPS_WEEKSECS⌋

/-- Source `gpssow = local_est_GPS_time * NS_TO_S - gpsweek * GPS_WEEKSECS` where
`local_est_GPS_time = TimeNanos - (fullbiasnanos + BiasNanos)`. -/
def gpssow (fbn : ℚ) (m : RawMeas) : ℚ :=
  (m.TimeNanos - (fbn + m.BiasNanos)) * NS_TO_S - (gpsweek fbn : ℚ) * GPS_WEEKSECS

/-- Source `frac`: zero unless integerize is set, else `gpssow - int(gpssow + 0.5)`. -/
def fracOf (integerize : Bool) (sow : ℚ) : ℚ :=
  if integerize then sow - (pyInt (sow + 1/2) : ℚ) else 0

/-- Source `week_number_nanos = floor(-fullbiasnanos / NUM_NANOSEC_WEEK) * NUM_NANOSEC_WEEK`. -/
def weekNumberNanos (fbn : ℚ) : ℚ :=
  (⌊-fbn / NUM_NANOSEC_WEEK⌋ : ℚ) * NUM_NANOSEC_WEEK

/-- Source `day_number_nanos = floor(-fullbiasnanos / NUM_NANOSEC_DAY) * NUM_NANOSEC_DAY`. -/
def dayNumberNanos (fbn : ℚ) : ℚ :=
  (⌊-fbn / NUM_NANOSEC_DAY⌋ : ℚ) * NUM_NANOSEC_DAY

/-- Source `millSec_number_nanos = floor(-fullbiasnanos / NUM_NANOSEC_100MILL) * NUM_NANOSEC_100MILL`. -/
def millSecNumberNanos (fbn : ℚ) : ℚ :=
  (⌊-fbn / NUM_NANOSEC_100MILL⌋ : ℚ) * NUM_NANOSEC_100MILL

/-- Source `tRx_GNSS = TimeNanos + TimeOffsetNanos - FullBiasNanos - BiasNanos`
(note: the raw `FullBiasNanos` field, not the held full bias). -/
def tRx_GNSS (m : RawMeas) : ℚ :=
  m.TimeNanos + m.TimeOffsetNanos - m.FullBiasNanos - m.BiasNanos

/-- Source `LeapSecond` with the `None -> "0"` substitution of the source. -/
def leapOf (m : RawMeas) : ℤ :=
  m.LeapSecond.getD 0

/-- The per-constellation `tRx_nanos` branch of the 3.03 script.  `none`
models the uncaught `TypeError` of `float(None)` when a Galileo record has
no carrier frequency. -/
def tRxNanos (fbn : ℚ) (m : RawMeas) : Option ℚ :=
  if m.ConstellationType = CONSTELLATION_GPS then
    some (tRx_GNSS m - weekNumberNanos fbn)
  else if m.ConstellationType = CONSTELLATION_GLONASS then
    some (tRx_GNSS m - dayNumberNanos fbn + (3 * 3600 - (leapOf m : ℚ)) * S_TO_NS)
  else if m.ConstellationType = CONSTELLATION_GALILEO then
    match m.CarrierFrequencyHz with
    | none => none
    | some cf =>
      if 1500000000 < cf then some (tRx_GNSS m - millSecNumberNanos fbn)
      else some (tRx_GNSS m - weekNumberNanos fbn)
  else if m.ConstellationType = CONSTELLATION_BEIDOU then
    some (tRx_GNSS m - weekNumberNanos fbn - 14 * S_TO_NS)
  else
    some (tRx_GNSS m - weekNumberNanos fbn)

/-- Modelled from the spec, claim C1 reading: GPS and high-band Galileo from
the week boundary, GLONASS from the day boundary plus `3h - leap`, BeiDou from
the week boundary minus 14 s, and low-band Galileo from the 100-ms boundary. -/
def tRxNanosSpecClaimed (fbn : ℚ) (m : RawMeas) : Option ℚ :=
  let g := tRx_GNSS m
  let origin : Option ℚ :=
    if m.ConstellationType = CONSTELLATION_GPS then some (weekNumberNanos fbn)
    else if m.ConstellationType = CONSTELLATION_GLONASS then
      some (dayNumberNanos fbn - (3 * 3600 - (leapOf m : ℚ)) * S_TO_NS)
    else if m.ConstellationType = CONSTELLATION_GALILEO then
      m.CarrierFrequencyHz.map fun cf =>
        if 1500000000 < cf then weekNumberNanos fbn else millSecNumberNanos fbn
    else if m.ConstellationType = CONSTELLATION_BEIDOU then
      some (weekNumberNanos fbn + 14 * S_TO_NS)
    else some (weekNumberNanos fbn)
  origin.map fun o => g - o

/-- Modelled from the spec as amended: identical to the claim reading except
that the two Galileo cases are swapped — the high band (above 1500 MHz) uses
the 100-ms boundary and the low band uses the week boundary. -/
def tRxNanosSpecAmended (fbn : ℚ) (m : RawMeas) : Option ℚ :=
  let g := tRx_GNSS m
  let origin : Option ℚ :=
    if m.ConstellationType = CONSTELLATION_GPS then some (weekNumberNanos fbn)
    else if m.ConstellationType = CONSTELLATION_GLONASS then
      some (dayNumberNanos fbn - (3 * 3600 - (leapOf m : ℚ)) * S_TO_NS)
    else if m.ConstellationType = CONSTELLATION_GALILEO then
      m.CarrierFrequencyHz.map fun cf =>
        if 1500000000 < cf then millSecNumberNanos fbn else weekNumberNanos fbn
    else if m.ConstellationType = CONSTELLATION_BEIDOU then
      some (weekNumberNanos fbn + 14 * S_TO_NS)
    else some (weekNumberNanos fbn)
  origin.map fun o => g - o

/-- The pseudorange `c1` of the 3.03 script: wrapped travel time scaled by the
speed of light, minus the integerization compensation `frac * rate`. -/
def c1_303 (integerize : Bool) (fbn : ℚ) (m : RawMeas) : Option ℚ :=
  (tRxNanos fbn m).map fun trxn =>
    let tau := wrapTau (trxn * NS_TO_S - m.ReceivedSvTimeNanos * NS_TO_S)
    tau * SPEED_OF_LIGHT
      - fracOf integerize (gpssow fbn m) * m.PseudorangeRateMetersPerSecond

/-- The decimal digit characters. -/
def digitChar (d : ℕ) : Char :=
  ['0', '1', '2', '3', '4', '5', '6', '7', '8', '9'].getD d '0'

/-- Decimal digits of a natural number. -/
def natStr (n : ℕ) : String :=
  if n < 10 then String.mk [digitChar n]
  else natStr (n / 10) ++ String.mk [digitChar (n % 10)]
decreasing_by exact Nat.div_lt_self (by omega) (by omega)

/-- Zero padding to width `w`, as in Python `'{:0wd}'` / `strftime`. -/
def padZero (w : ℕ) (n : ℕ) : String :=
  String.mk (List.replicate (w - (natStr n).length) '0') ++ natStr n

/-- Python `'{0:02d}'.format(z)` for an integer `z`. -/
def pyFmt02d (z : ℤ) : String :=
  if z < 0 then "-" ++ natStr z.natAbs else padZero 2 z.natAbs

/-- Right justification with spaces to width `w`. -/
def rjust (w : ℕ) (s : String) : String :=
  String.mk (List.replicate (w - s.length) ' ') ++ s

/-- Left justification with spaces to width `w`. -/
def ljust (w : ℕ) (s : String) : String :=
  s ++ String.mk (List.replicate (w - s.length) ' ')

/-- Result of classifying one record into constellation, band and observables. -/
inductive ClsResult
  | skip (w : Warning)
  | err
  | ok (codeType svid : String) (l1v d1v : ℚ)
deriving DecidableEq, Repr

/-- The svid / codeType / carrier-phase / Doppler cascade of the 3.03 main
loop (`err` embeds the `IndexError` on `GLN_LIST[prn-1]`). -/
def classify303 (c1v cf : ℚ) (m : RawMeas) : ClsResult :=
  let prn : ℤ := m.Svid
  let adr := m.AccumulatedDeltaRangeMeters
  let rate := m.PseudorangeRateMetersPerSecond
  if m.ConstellationType = CONSTELLATION_GPS then
    let svid := "G" ++ pyFmt02d prn
    if 1500000000 < cf then
      .ok "L1" svid (get_correction_adr c1v (adr / GPS_L1_WAVELENGTH) GPS_L1_WAVELENGTH)
        (-rate / GPS_L1_WAVELENGTH)
    else if 1200000000 < cf then
      .ok "L2" svid (get_correction_adr c1v (adr / GPS_L2_WAVELENGTH) GPS_L2_WAVELENGTH)
        (-rate / GPS_L2_WAVELENGTH)
    else if 1100000000 < cf then
      .ok "L5" svid (get_correction_adr c1v (adr / GPS_L5_WAVELENGTH) GPS_L5_WAVELENGTH)
        (-rate / GPS_L5_WAVELENGTH)
    else .ok "" svid 0 0
  else if m.ConstellationType = CONSTELLATION_GLONASS then
    if 93 ≤ prn then .skip .glonassFSN
    else
      let svid := "R" ++ pyFmt02d prn
      if 1500000000 < cf then
        match pyGet GLN_LIST (prn - 1) with
        | none => .err
        | some ch =>
          .ok "L1" svid (get_correction_adr c1v (adr / get_glo_L1 ch) (get_glo_L1 ch))
            (-rate / get_glo_L1 ch)
      else if 1200000000 < cf then
        match pyGet GLN_LIST (prn - 1) with
        | none => .err
        | some ch =>
          .ok "L2" svid (get_correction_adr c1v (adr / get_glo_L2 ch) (get_glo_L2 ch))
            (-rate / get_glo_L2 ch)
      else .ok "" svid 0 0
  else if m.ConstellationType = CONSTELLATION_GALILEO then
    let svid := "E" ++ pyFmt02d prn
    if 1500000000 < cf then
      .ok "E1" svid (get_correction_adr c1v (adr / GAL_E1_WAVELENGTH) GAL_E1_WAVELENGTH)
        (-rate / GAL_E1_WAVELENGTH)
    else if 1250000000 < cf then
      .ok "E6" svid (get_correction_adr c1v (adr / GAL_E6_WAVELENGTH) GAL_E6_WAVELENGTH)
        (-rate / GAL_E5B_WAVELENGTH)
    else if 1200000000 < cf then
      .ok "E5b" svid (get_correction_adr c1v (adr / GAL_E5B_WAVELENGTH) GAL_E5B_WAVELENGTH)
        (-rate / GAL_E5B_WAVELENGTH)
    else if 1100000000 < cf then
      .ok "E5a" svid (get_correction_adr c1v (adr / GAL_E5A_WAVELENGTH) GAL_E5A_WAVELENGTH)
        (-rate / GAL_E5A_WAVELENGTH)
    else .ok "" svid 0 0
  else if m.ConstellationType = CONSTELLATION_BEIDOU then
    let svid := "C" ++ pyFmt02d prn
    if 1500000000 < cf then
      .ok "B1" svid (get_correction_adr c1v (adr / BDS_L1_WAVELENGTH) BDS_L1_WAVELENGTH)
        (-rate / BDS_L1_WAVELENGTH)
    else if 1250000000 < cf then
      .ok "B3" svid (get_correction_adr c1v (adr / BDS_L3_WAVELENGTH) BDS_L3_WAVELENGTH)
        (-rate / BDS_L3_WAVELENGTH)
    else if 1100000000 < cf then
      .ok "B2" svid (get_correction_adr c1v (adr / BDS_L2_WAVELENGTH) BDS_L2_WAVELENGTH)
        (-rate / BDS_L2_WAVELENGTH)
    else .ok "" svid 0 0
  else if m.ConstellationType = CONSTELLATION_QZSS then .skip .constellationNotSupported
  else if m.ConstellationType = CONSTELLATION_SBAS then .skip .constellationNotSupported
  else .skip .constellationUnknown

/-- Outcome of processing one `Raw` record in the 3.03 main loop. -/
inductive RecStep
  | skipped
  | err
  | add (codeType svid : String) (c1v s1v l1v d1v : ℚ)
deriving DecidableEq, Repr

/-- One iteration of the 3.03 main loop for a record that parsed with the
right arity: the sync-state check (warn, never skip), the reception time and
pseudorange, the per-constellation classification, the ADR validity check
(zero the phase on failure), and the final batch-add arguments. -/
def processRecord (integerize : Bool) (fbn : ℚ) (m : RawMeas) : List Warning × RecStep :=
  let warns0 : List Warning := if checkState m.State then [] else [.invalidState]
  match c1_303 integerize fbn m with
  | none => (warns0, .err)
  | some c1v =>
    let cf : ℚ := m.CarrierFrequencyHz.getD 2000000000
    match classify303 c1v cf m with
    | .skip w => (warns0 ++ [w], .skipped)
    | .err => (warns0, .err)
    | .ok codeType svid l1v d1v =>
      if checkAdrState m.AccumulatedDeltaRangeState then
        (warns0, .add codeType svid c1v m.Cn0DbHz l1v d1v)
      else
        (warns0 ++ [.invalidAdrState], .add codeType svid c1v m.Cn0DbHz 0 d1v)

/-- A calendar timestamp; the batching claims only read its printed fields. -/
structure DateTime where
  year : ℕ
  month : ℕ
  day : ℕ
  hour : ℕ
  minute : ℕ
  second : ℕ
  micro : ℕ
deriving DecidableEq, Repr

namespace V303

/-- The epoch line `"> %Y %m %d %H %M %S.%f   0" + "{0:3d}".format(count)`. -/
def fmtEpochHeader (e : DateTime) (count : ℕ) : String :=
  "> " ++ padZero 4 e.year ++ " " ++ padZero 2 e.month ++ " " ++ padZero 2 e.day
    ++ " " ++ padZero 2 e.hour ++ " " ++ padZero 2 e.minute ++ " "
    ++ padZero 2 e.second ++ "." ++ padZero 6 e.micro ++ "   0"
    ++ rjust 3 (natStr count)

/-- One data line
`"{0:5}{1:>12}  {2:>14}  {3:>14}  {4:>14}  {5:>14}  {6:>14}  {7:>14}  {8:>14}\n"`. -/
def fmtDataLine (svid c1v l1v d1v s1v c2v l2v d2v s2v : String) : String :=
  ljust 5 svid ++ rjust 12 c1v ++ "  " ++ rjust 14 l1v ++ "  " ++ rjust 14 d1v
    ++ "  " ++ rjust 14 s1v ++ "  " ++ rjust 14 c2v ++ "  " ++ rjust 14 l2v
    ++ "  " ++ rjust 14 d2v ++ "  " ++ rjust 14 s2v ++ "\n"

/-- The 3.03 `RinexBatch`: parallel per-satellite columns for two bands. -/
structure RinexBatch where
  epoch : DateTime
  svids : List String
  c1 : List String
  c2 : List String
  l1 : List String
  l2 : List String
  s1 : List String
  s2 : List String
  d1 : List String
  d2 : List String
deriving DecidableEq, Repr

/-- A batch freshly constructed for an epoch. -/
def RinexBatch.mkEmpty (e : DateTime) : RinexBatch :=
  ⟨e, [], [], [], [], [], [], [], [], []⟩

/-- Index of the first occurrence of `svid`, mirroring the search loop of
`RinexBatch.add`. -/
def findSv (svid : String) : List String → Option ℕ
  | [] => none
  | s :: rest => if s = svid then some 0 else (findSv svid rest).map (· + 1)

/-- Source `RinexBatch.add(codeType, svid, c1, s1, l1, d1)`: merge into an existing
row of the same satellite (primary bands L1/E1/B1 fill the first-band
columns, anything else the second-band columns), else append a new row with
the other band left empty. -/
def RinexBatch.add (b : RinexBatch) (codeType svid c1v s1v l1v d1v : String) :
    RinexBatch :=
  match findSv svid b.svids with
  | some i =>
    if codeType = "L1" ∨ codeType = "E1" ∨ codeType = "B1" then
      { b with c1 := b.c1.set i c1v, s1 := b.s1.set i s1v,
               l1 := b.l1.set i l1v, d1 := b.d1.set i d1v }
    else
      { b with c2 := b.c2.set i c1v, s2 := b.s2.set i s1v,
               l2 := b.l2.set i l1v, d2 := b.d2.set i d1v }
  | none =>
    if codeType = "L1" ∨ codeType = "E1" ∨ codeType = "B1" then
      { b with svids := b.svids ++ [svid],
               c1 := b.c1 ++ [c1v], s1 := b.s1 ++ [s1v],
               l1 := b.l1 ++ [l1v], d1 := b.d1 ++ [d1v],
               c2 := b.c2 ++ [""], s2 := b.s2 ++ [""],
               l2 := b.l2 ++ [""], d2 := b.d2 ++ [""] }
    else
      { b with svids := b.svids ++ [svid],
               c1 := b.c1 ++ [""], s1 := b.s1 ++ [""],
               l1 := b.l1 ++ [""], d1 := b.d1 ++ [""],
               c2 := b.c2 ++ [c1v], s2 := b.s2 ++ [s1v],
               l2 := b.l2 ++ [l1v], d2 := b.d2 ++ [d1v] }

/-- The data line for row `i` of a batch. -/
def RinexBatch.dataLine (b : RinexBatch) (i : ℕ) : String :=
  fmtDataLine (b.svids.getD i "") (b.c1.getD i "") (b.l1.getD i "")
    (b.d1.getD i "") (b.s1.getD i "") (b.c2.getD i "") (b.l2.getD i "")
    (b.d2.getD i "") (b.s2.getD i "")

/-- One constellation block: the rows whose satellite id contains `letter`,
scanned in row order (`for i in range(len(svids)): if letter in svids[i]`). -/
def RinexBatch.blockData (b : RinexBatch) (letter : Char) : String :=
  (List.range b.svids.length).foldl
    (fun acc i => if (b.svids.getD i "").data.contains letter then acc ++ b.dataLine i else acc)
    ""

/-- Returns `true` iff some satellite id repeats in the list. -/
def hasRepeated (l : List String) : Bool :=
  l.any fun s => decide (1 < l.count s)

/-- Source `RinexBatch.print`: empty output plus a stderr warning when a satellite id
repeats, else the epoch line followed by the G, C, E, R, J constellation
blocks. -/
def RinexBatch.print (b : RinexBatch) : String × List Warning :=
  if hasRepeated b.svids then
    ("", [.repeatedEntries])
  else
    let hdr := fmtEpochHeader b.epoch b.svids.length
    let data := b.blockData 'G' ++ b.blockData 'C' ++ b.blockData 'E'
      ++ b.blockData 'R' ++ b.blockData 'J'
    (hdr ++ "\n" ++ data, [])

end V303

namespace V211

/-- Source `GPS_L1_FREQ = 154.0 * 10.23e6` of the 2.11 script (same value). -/
def GPS_L1_FREQ : ℚ := 154 * 10230000

/-- Source `GPS_L1_WAVELENGTH` of the 2.11 script. -/
def GPS_L1_WAVELENGTH : ℚ := SPEED_OF_LIGHT / GPS_L1_FREQ

/-- The 2.11 pseudorange: `tRxSeconds = gpssow - TimeOffsetNanos * NS_TO_S`,
`tTxSeconds = ReceivedSvTimeNanos * NS_TO_S`, week-wrapped travel time scaled
by the speed of light, minus the integerization compensation. -/
def c1_211 (integerize : Bool) (fbn : ℚ) (m : RawMeas) : ℚ :=
  let sow := gpssow fbn m
  let tRxSeconds := sow - m.TimeOffsetNanos * NS_TO_S
  let tTxSeconds := m.ReceivedSvTimeNanos * NS_TO_S
  let tau := wrapTau (tRxSeconds - tTxSeconds)
  tau * SPEED_OF_LIGHT
    - fracOf integerize sow * m.PseudorangeRateMetersPerSecond

/-- Idealized decimal rendering of Python `'{:.3f}'`. -/
def fmtFixed3 (q : ℚ) : String :=
  let n : ℤ := round (q * 1000)
  (if n < 0 then "-" else "") ++ natStr (n.natAbs / 1000) ++ "."
    ++ padZero 3 (n.natAbs % 1000)

/-- The 2.11 epoch line prefix `" %y %m %d %H %M %S.%f   0" + "{0:3d}"`. -/
def fmtEpochHeader (e : DateTime) (count : ℕ) : String :=
  " " ++ padZero 2 (e.year % 100) ++ " " ++ padZero 2 e.month ++ " "
    ++ padZero 2 e.day ++ " " ++ padZero 2 e.hour ++ " " ++ padZero 2 e.minute
    ++ " " ++ padZero 2 e.second ++ "." ++ padZero 6 e.micro ++ "   0"
    ++ rjust 3 (natStr count)

/-- One 2.11 data line `"{0:14.3f}  {1:14.3f}  {2:14.3f}  {3:14.3f}\n"`
over the columns `c1, s1, l1, d1`. -/
def fmtDataLine (c1v s1v l1v d1v : ℚ) : String :=
  rjust 14 (fmtFixed3 c1v) ++ "  " ++ rjust 14 (fmtFixed3 s1v) ++ "  "
    ++ rjust 14 (fmtFixed3 l1v) ++ "  " ++ rjust 14 (fmtFixed3 d1v) ++ "\n"

/-- The 2.11 `RinexBatch`: single-band parallel columns. -/
structure RinexBatch where
  epoch : DateTime
  svids : List String
  c1 : List ℚ
  l1 : List ℚ
  s1 : List ℚ
  d1 : List ℚ
deriving DecidableEq, Repr

/-- Source `RinexBatch.add(svid, c1, s1, l1, d1)`: plain append of a new row. -/
def RinexBatch.add (b : RinexBatch) (svid : String) (c1v s1v l1v d1v : ℚ) :
    RinexBatch :=
  { b with svids := b.svids ++ [svid], c1 := b.c1 ++ [c1v],
           s1 := b.s1 ++ [s1v], l1 := b.l1 ++ [l1v], d1 := b.d1 ++ [d1v] }

/-- Source `RinexBatch.print` of the 2.11 script: empty output plus a warning on a
repeated satellite id, else the epoch line (with a continuation line every 12
satellite ids) followed by one data line per satellite. -/
def RinexBatch.print (b : RinexBatch) : String × List Warning :=
  if V303.hasRepeated b.svids then
    ("", [.repeatedEntries])
  else
    let start := fmtEpochHeader b.epoch b.svids.length
    let hd : String × String := (List.range b.svids.length).foldl
      (fun p i =>
        let hdr := if 0 < i ∧ i % 12 = 0
          then p.1 ++ "\n" ++ String.mk (List.replicate 32 ' ')
          else p.1
        (hdr ++ b.svids.getD i "",
         p.2 ++ fmtDataLine (b.c1.getD i 0) (b.s1.getD i 0) (b.l1.getD i 0)
           (b.d1.getD i 0)))
      (start, "")
    (hd.1 ++ "\n" ++ hd.2, [])

end V211

/-- A baseline measurement record used by the concrete counterexamples. -/
def m0 : RawMeas where
  State := 9
  FullBiasNanos := 0
  TimeNanos := 0
  BiasNanos := 0
  TimeOffsetNanos := 0
  LeapSecond := none
  ConstellationType := 1
  Svid := 0
  CarrierFrequencyHz := none
  ReceivedSvTimeNanos := 0
  AccumulatedDeltaRangeMeters := 0
  AccumulatedDeltaRangeState := 1
  PseudorangeRateMetersPerSecond := 0
  Cn0DbHz := 0

/-- Closed form of `get_correction_adr`: the returned cycles are
`psr/wl ± MAX_VALUE/2`, independent of the raw cycle count except through the
sign of the ratio. -/
theorem get_correction_adr_closed (psr x wl : ℚ) :
    get_correction_adr psr x wl =
      if (psr / wl + x) / MAX_VALUE ≤ 0 then psr / wl - MAX_VALUE / 2
      else psr / wl + MAX_VALUE / 2 := by
  unfold get_correction_adr
  simp only [MAX_VALUE]
  split_ifs with h <;> ring

/-- Claim C2 (code bug): on pseudorange 8388608, raw cycles 0, wavelength 1
the source returns 12582912 — the wrap count 1.5 is never truncated to an
integer — while the rounded formula of the claim yields 8388608. -/
theorem c2_missing_rounding :
    get_correction_adr 8388608 0 1 = 12582912 ∧
    get_correction_adr_spec 8388608 0 1 = 8388608 ∧
    get_correction_adr 8388608 0 1 ≠ get_correction_adr_spec 8388608 0 1 := by
  refine ⟨by norm_num [get_correction_adr, MAX_VALUE], ?_, ?_⟩ <;>
    norm_num [get_correction_adr, get_correction_adr_spec, MAX_VALUE]

/-- Claim C3 (counterexample): a GPS measurement whose transmission time is
two weeks after the reception time gets exactly one week added, yet the
travel time that scales the speed of light — and hence the pseudorange —
remains negative. -/
theorem c3_counterexample :
    wrapTau (0 - 1209600) = 0 - 1209600 + GPS_WEEKSECS ∧
    c1_303 false 0 { m0 with ReceivedSvTimeNanos := 1209600 * 1000000000 } =
      some (-604800 * SPEED_OF_LIGHT) ∧
    -604800 * SPEED_OF_LIGHT < 0 := by
  refine ⟨by norm_num [wrapTau, GPS_WEEKSECS], ?_, by norm_num [SPEED_OF_LIGHT]⟩
  norm_num [c1_303, tRxNanos, tRx_GNSS, weekNumberNanos, gpssow, gpsweek, fracOf,
    wrapTau, m0, CONSTELLATION_GPS, CONSTELLATION_GLONASS, CONSTELLATION_GALILEO,
    CONSTELLATION_BEIDOU, NS_TO_S, S_TO_NS, NUM_NANOSEC_WEEK, GPS_WEEKSECS,
    SPEED_OF_LIGHT]

/-- Claim C3 (amended): a negative travel time gets exactly one week length
added; the corrected travel time is non-negative provided the uncorrected
one is at least minus one week; a non-negative travel time is unchanged. -/
theorem c3_amended (t : ℚ) :
    (t < 0 → wrapTau t = t + GPS_WEEKSECS) ∧
    (-GPS_WEEKSECS ≤ t → 0 ≤ wrapTau t) ∧
    (0 ≤ t → wrapTau t = t) := by
  unfold wrapTau
  refine ⟨fun h => by simp [h], fun h => ?_, fun h => by simp [not_lt.mpr h]⟩
  split
  · linarith
  · linarith [not_lt.mp (by assumption : ¬ t < 0)]

/-- Witness for `c3_amended` at `t = -1` and `t = 2`. -/
theorem c3_amended_witness :
    wrapTau (-1) = -1 + GPS_WEEKSECS ∧ 0 ≤ wrapTau (-1) ∧ wrapTau 2 = 2 :=
  ⟨(c3_amended (-1)).1 (by norm_num),
   (c3_amended (-1)).2.1 (by norm_num [GPS_WEEKSECS]),
   (c3_amended 2).2.2 (by norm_num)⟩

/-- Claim C5 (counterexample): the ambiguity correction is not idempotent —
with pseudorange 8388608, wavelength 1 and raw cycles -16777216 the first
application yields 4194304 and the second 12582912. -/
theorem c5_counterexample :
    get_correction_adr 8388608 (-16777216) 1 = 4194304 ∧
    get_correction_adr 8388608 (get_correction_adr 8388608 (-16777216) 1) 1
      = 12582912 ∧
    get_correction_adr 8388608 (get_correction_adr 8388608 (-16777216) 1) 1
      ≠ get_correction_adr 8388608 (-16777216) 1 := by
  norm_num [get_correction_adr, MAX_VALUE]

/-- Claim C5 (amended): the correction is idempotent whenever the wavelength
is positive, the pseudorange non-negative, and the in-cycles pseudorange at
most a quarter of the roll-over modulus. -/
theorem c5_amended (psr x wl : ℚ) (hwl : 0 < wl) (hpsr : 0 ≤ psr)
    (hq : psr / wl ≤ MAX_VALUE / 4) :
    get_correction_adr psr (get_correction_adr psr x wl) wl =
      get_correction_adr psr x wl := by
  have hM : (0:ℚ) < MAX_VALUE := by norm_num [MAX_VALUE]
  have hr : 0 ≤ psr / wl := div_nonneg hpsr hwl.le
  rw [get_correction_adr_closed psr x wl, get_correction_adr_closed]
  have hA : (psr / wl + (psr / wl - MAX_VALUE / 2)) / MAX_VALUE ≤ 0 :=
    div_nonpos_of_nonpos_of_nonneg (by linarith) hM.le
  have hB : ¬ (psr / wl + (psr / wl + MAX_VALUE / 2)) / MAX_VALUE ≤ 0 :=
    not_le.mpr (div_pos (by linarith) hM)
  by_cases h1 : (psr / wl + x) / MAX_VALUE ≤ 0
  · rw [if_pos h1, if_pos hA]
  · rw [if_neg h1, if_neg hB]

/-- Witness for `c5_amended` at `psr = 0`, `x = 0`, `wl = 1`. -/
theorem c5_amended_witness :
    (0:ℚ) < 1 ∧ (0:ℚ) ≤ 0 ∧ (0:ℚ) / 1 ≤ MAX_VALUE / 4 ∧
    get_correction_adr 0 (get_correction_adr 0 0 1) 1 = get_correction_adr 0 0 1 :=
  ⟨by norm_num, by norm_num, by norm_num [MAX_VALUE],
   c5_amended 0 0 1 (by norm_num) (by norm_num) (by norm_num [MAX_VALUE])⟩

/-- The Galileo record of the C1 counterexample: high band (1575.42 MHz),
full bias -1 s. -/
def mC1 : RawMeas :=
  { m0 with
    ConstellationType := 6
    FullBiasNanos := -1000000000
    CarrierFrequencyHz := some 1575420000 }

/-- Claim C1 (counterexample): on a high-band Galileo record the source
subtracts the 100-millisecond boundary, not the week boundary the claim
assigns to high-band Galileo: with full bias -1 s the code yields reception
time 0 ns while the claim's reading yields 1e9 ns. -/
theorem c1_counterexample :
    tRxNanos (-1000000000) mC1 = some 0 ∧
    tRxNanosSpecClaimed (-1000000000) mC1 = some 1000000000 ∧
    tRxNanos (-1000000000) mC1 ≠ tRxNanosSpecClaimed (-1000000000) mC1 := by
  refine ⟨?_, ?_, ?_⟩ <;>
    norm_num [tRxNanos, tRxNanosSpecClaimed, tRx_GNSS, mC1, m0, leapOf,
      weekNumberNanos, millSecNumberNanos, dayNumberNanos, CONSTELLATION_GPS,
      CONSTELLATION_GLONASS, CONSTELLATION_GALILEO, CONSTELLATION_BEIDOU,
      NUM_NANOSEC_WEEK, NUM_NANOSEC_100MILL, NUM_NANOSEC_DAY, S_TO_NS]

/-- Claim C1 (amended): the reception-time origin of the 3.03 variant per
constellation — GPS from the week boundary, GLONASS from the day boundary
plus `3 h - leap`, BeiDou from the week boundary minus 14 s, and Galileo
from the 100-ms boundary on the high band (above 1500 MHz) and from the week
boundary on the low band. -/
theorem c1_amended (fbn : ℚ) (m : RawMeas) :
    tRxNanos fbn m = tRxNanosSpecAmended fbn m := by
  unfold tRxNanos tRxNanosSpecAmended
  cases hcf : m.CarrierFrequencyHz <;>
    simp only [hcf, Option.map_some', Option.map_none'] <;> split_ifs <;>
    simp [Option.some.injEq] <;> ring

/-- An epoch used by the concrete batch examples. -/
def e0 : DateTime := ⟨2023, 1, 2, 3, 4, 5, 0⟩

/-- A 3.03 batch with a repeated satellite id. -/
def bdup303 : V303.RinexBatch :=
  { epoch := e0, svids := ["G01", "G01"], c1 := ["", ""], c2 := ["", ""],
    l1 := ["", ""], l2 := ["", ""], s1 := ["", ""], s2 := ["", ""],
    d1 := ["", ""], d2 := ["", ""] }

/-- A 2.11 batch with a repeated satellite id. -/
def bdup211 : V211.RinexBatch :=
  { epoch := e0, svids := ["G01", "G01"], c1 := [0, 0], l1 := [0, 0],
    s1 := [0, 0], d1 := [0, 0] }

/-- Claim C4: in both schema variants a satellite id repeated in the batch's
final list makes the serializer return the empty string — no epoch line and
no data lines — and surface a warning. -/
theorem c4_duplicate_skips_epoch :
    (∀ b : V303.RinexBatch, ∀ sat ∈ b.svids, 1 < b.svids.count sat →
      (V303.RinexBatch.print b).1 = "" ∧
      (V303.RinexBatch.print b).2 = [Warning.repeatedEntries]) ∧
    (∀ b : V211.RinexBatch, ∀ sat ∈ b.svids, 1 < b.svids.count sat →
      (V211.RinexBatch.print b).1 = "" ∧
      (V211.RinexBatch.print b).2 = [Warning.repeatedEntries]) := by
  constructor <;>
  · intro b sat hmem hcount
    have hrep : V303.hasRepeated b.svids = true := by
      rw [V303.hasRepeated, List.any_eq_true]
      exact ⟨sat, hmem, by simpa using hcount⟩
    constructor <;> simp [V303.RinexBatch.print, V211.RinexBatch.print, hrep]

/-- Witness for `c4_duplicate_skips_epoch` on concrete duplicated batches. -/
theorem c4_duplicate_skips_epoch_witness :
    ((V303.RinexBatch.print bdup303).1 = "" ∧
      (V303.RinexBatch.print bdup303).2 = [Warning.repeatedEntries]) ∧
    ((V211.RinexBatch.print bdup211).1 = "" ∧
      (V211.RinexBatch.print bdup211).2 = [Warning.repeatedEntries]) :=
  ⟨c4_duplicate_skips_epoch.1 bdup303 "G01" (by decide) (by decide),
   c4_duplicate_skips_epoch.2 bdup211 "G01" (by decide) (by decide)⟩

/-- Claim C6: with integerization the emitted time of week is a whole number
of seconds, the 2.11 pseudorange differs from the non-integerized one by
exactly `frac * PseudorangeRateMetersPerSecond`, and (for the non-negative
times of week that occur) `frac` is `timeOfWeek - round(timeOfWeek)`. -/
theorem c6_integerize_roundtrip (fbn : ℚ) (m : RawMeas) :
    (∃ n : ℤ, gpssow fbn m - fracOf true (gpssow fbn m) = (n : ℚ)) ∧
    V211.c1_211 false fbn m - V211.c1_211 true fbn m
      = fracOf true (gpssow fbn m) * m.PseudorangeRateMetersPerSecond ∧
    (0 ≤ gpssow fbn m →
      fracOf true (gpssow fbn m)
        = gpssow fbn m - (round (gpssow fbn m) : ℚ)) := by
  refine ⟨⟨pyInt (gpssow fbn m + 1/2), by simp [fracOf]⟩, ?_, fun h => ?_⟩
  · simp [V211.c1_211, fracOf]
  · have h2 : (0:ℚ) ≤ gpssow fbn m + 1/2 := by linarith
    simp only [fracOf, if_pos, pyInt, h2, round_eq]

/-- Witness for `c6_integerize_roundtrip` at full bias 0 and the zero
measurement. -/
theorem c6_integerize_roundtrip_witness :
    (∃ n : ℤ, gpssow 0 m0 - fracOf true (gpssow 0 m0) = (n : ℚ)) ∧
    V211.c1_211 false 0 m0 - V211.c1_211 true 0 m0
      = fracOf true (gpssow 0 m0) * m0.PseudorangeRateMetersPerSecond ∧
    fracOf true (gpssow 0 m0) = gpssow 0 m0 - (round (gpssow 0 m0) : ℚ) :=
  ⟨(c6_integerize_roundtrip 0 m0).1, (c6_integerize_roundtrip 0 m0).2.1,
   (c6_integerize_roundtrip 0 m0).2.2 (by
     norm_num [gpssow, gpsweek, m0, NS_TO_S, GPS_WEEKSECS])⟩

/-- Whether a record's outcome is an addition to the batch. -/
def RecStep.isAdd : RecStep → Bool
  | .add _ _ _ _ _ _ => true
  | _ => false

/-- The per-record outcome never depends on the sync-state field: the sync
check only writes a warning. -/
theorem processRecord_snd_state (iz : Bool) (fbn : ℚ) (m : RawMeas) (s : ℕ) :
    (processRecord iz fbn { m with State := s }).2 = (processRecord iz fbn m).2 := by
  have hc : c1_303 iz fbn { m with State := s } = c1_303 iz fbn m := rfl
  have hcls : ∀ v, classify303 v (m.CarrierFrequencyHz.getD 2000000000)
      { m with State := s }
      = classify303 v (m.CarrierFrequencyHz.getD 2000000000) m := fun _ => rfl
  cases hcv : c1_303 iz fbn m with
  | none => simp only [processRecord, hc, hcv]
  | some c1v =>
    cases hcc : classify303 c1v (m.CarrierFrequencyHz.getD 2000000000) m with
    | skip w => simp only [processRecord, hc, hcls, hcv, hcc]
    | err => simp only [processRecord, hc, hcls, hcv, hcc]
    | ok ct sv l1v d1v =>
      by_cases ha : checkAdrState m.AccumulatedDeltaRangeState = true <;>
        simp [processRecord, hc, hcls, hcv, hcc, ha]

/-- For a GPS record the reception time resolves. -/
theorem tRxNanos_gps (fbn : ℚ) (m : RawMeas)
    (h : m.ConstellationType = CONSTELLATION_GPS) :
    tRxNanos fbn m = some (tRx_GNSS m - weekNumberNanos fbn) := by
  simp [tRxNanos, h]

/-- Claim C7: a record whose sync bitmask lacks the code-lock bit or the
time-of-week-decoded bit gets a warning on the diagnostic channel, yet its
outcome is exactly the outcome of the same record with a valid sync state;
in particular a GPS record still contributes an observable. -/
theorem c7_sync_warn_continue (iz : Bool) (fbn : ℚ) (m : RawMeas)
    (h : m.State &&& STATE_CODE_LOCK = 0 ∨ m.State &&& STATE_TOW_DECODED = 0) :
    Warning.invalidState ∈ (processRecord iz fbn m).1 ∧
    (processRecord iz fbn m).2 = (processRecord iz fbn { m with State := 9 }).2 ∧
    (m.ConstellationType = CONSTELLATION_GPS →
      ((processRecord iz fbn m).2).isAdd = true) := by
  have hcs : checkState m.State = false := by
    rcases h with h' | h' <;> simp [checkState, h']
  refine ⟨?_, (processRecord_snd_state iz fbn m 9).symm, fun hgps => ?_⟩
  · cases hcv : c1_303 iz fbn m with
    | none => simp [processRecord, hcs, hcv]
    | some c1v =>
      cases hcls : classify303 c1v (m.CarrierFrequencyHz.getD 2000000000) m with
      | skip w => simp [processRecord, hcs, hcv, hcls]
      | err => simp [processRecord, hcs, hcv, hcls]
      | ok ct sv l1v d1v =>
        by_cases ha : checkAdrState m.AccumulatedDeltaRangeState = true <;>
          simp [processRecord, hcs, hcv, hcls, ha]
  · have ht := tRxNanos_gps fbn m hgps
    have hv : c1_303 iz fbn m
        = some (wrapTau ((tRx_GNSS m - weekNumberNanos fbn) * NS_TO_S
            - m.ReceivedSvTimeNanos * NS_TO_S) * SPEED_OF_LIGHT
          - fracOf iz (gpssow fbn m) * m.PseudorangeRateMetersPerSecond) := by
      simp [c1_303, ht]
    simp only [processRecord, hv]
    simp only [classify303, hgps, if_pos]
    split_ifs <;> simp [RecStep.isAdd]

/-- A record with an invalid sync state, for the C7 witness. -/
def mC7 : RawMeas := { m0 with State := 0 }

/-- Witness for `c7_sync_warn_continue` at a concrete GPS record with sync
state 0. -/
theorem c7_sync_warn_continue_witness :
    (mC7.State &&& STATE_CODE_LOCK = 0 ∨ mC7.State &&& STATE_TOW_DECODED = 0) ∧
    (Warning.invalidState ∈ (processRecord false 0 mC7).1 ∧
     (processRecord false 0 mC7).2 = (processRecord false 0 { mC7 with State := 9 }).2 ∧
     (mC7.ConstellationType = CONSTELLATION_GPS →
       ((processRecord false 0 mC7).2).isAdd = true)) :=
  ⟨Or.inl (by decide), c7_sync_warn_continue false 0 mC7 (Or.inl (by decide))⟩

/-- The GLONASS record of the C8 counterexample: PRN 30 (below the 93
cut-off), L1-band carrier frequency. -/
def mC8 : RawMeas :=
  { m0 with
    ConstellationType := 3
    Svid := 30
    CarrierFrequencyHz := some 1602000000 }

/-- Claim C8 (counterexample): GLONASS PRN 30 passes the `< 93` check but
indexes the 24-entry channel table out of bounds, so the record ends in an
uncaught indexing error rather than a completed band-wavelength
computation. -/
theorem c8_counterexample :
    mC8.Svid < 93 ∧ pyGet GLN_LIST (mC8.Svid - 1) = none ∧
    (processRecord false 0 mC8).2 = RecStep.err := by
  refine ⟨by norm_num [mC8, m0], by decide, ?_⟩
  norm_num [processRecord, c1_303, tRxNanos, tRx_GNSS, mC8, m0, leapOf,
    dayNumberNanos, weekNumberNanos, millSecNumberNanos, gpssow, gpsweek,
    fracOf, wrapTau, classify303, pyGet, GLN_LIST, CONSTELLATION_GPS,
    CONSTELLATION_GLONASS, CONSTELLATION_GALILEO, CONSTELLATION_BEIDOU,
    CONSTELLATION_QZSS, CONSTELLATION_SBAS, NS_TO_S, S_TO_NS,
    NUM_NANOSEC_DAY, NUM_NANOSEC_WEEK, NUM_NANOSEC_100MILL, GPS_WEEKSECS,
    SPEED_OF_LIGHT, List.get?]

/-- Claim C8 (amended): for a GLONASS record whose PRN is in the real slot
range 1..24 the channel-table lookup is within bounds and processing never
ends in an indexing error. -/
theorem c8_amended (iz : Bool) (fbn : ℚ) (m : RawMeas)
    (h1 : m.ConstellationType = CONSTELLATION_GLONASS)
    (h2 : 1 ≤ m.Svid) (h3 : m.Svid ≤ 24) :
    (pyGet GLN_LIST (m.Svid - 1)).isSome = true ∧
    (processRecord iz fbn m).2 ≠ RecStep.err := by
  have hlen : GLN_LIST.length = 24 := rfl
  have hnat : (m.Svid - 1).toNat < GLN_LIST.length := by
    rw [hlen]; omega
  have hsome : ∃ ch, pyGet GLN_LIST (m.Svid - 1) = some ch := by
    simp only [pyGet, if_neg (by omega : ¬ (m.Svid - 1 < 0)),
      if_pos (by omega : (0:ℤ) ≤ m.Svid - 1)]
    exact ⟨_, List.get?_eq_get hnat⟩
  obtain ⟨ch, hch⟩ := hsome
  refine ⟨by simp [hch], ?_⟩
  have ht : tRxNanos fbn m = some (tRx_GNSS m - dayNumberNanos fbn
      + (3 * 3600 - (leapOf m : ℚ)) * S_TO_NS) := by
    simp [tRxNanos, h1, CONSTELLATION_GPS, CONSTELLATION_GLONASS]
  have hv : ∃ v, c1_303 iz fbn m = some v := by simp [c1_303, ht]
  obtain ⟨v, hv⟩ := hv
  simp only [processRecord, hv]
  simp only [classify303, h1, CONSTELLATION_GPS, CONSTELLATION_GLONASS,
    if_pos, if_neg (by norm_num : ¬ ((3:ℤ) = 1)),
    if_neg (by omega : ¬ (93 ≤ m.Svid)), hch]
  split_ifs <;> simp

/-- The row search of `RinexBatch.add` finds nothing for a fresh satellite. -/
theorem findSv_eq_none (svid : String) (l : List String) (h : svid ∉ l) :
    V303.findSv svid l = none := by
  induction l with
  | nil => rfl
  | cons a t ih =>
    simp only [V303.findSv]
    rw [if_neg fun he => h (List.mem_cons.mpr (Or.inl he.symm)),
        ih fun ht => h (List.mem_cons.mpr (Or.inr ht))]
    rfl

/-- Claim C10: a GPS record with carrier frequency below every band
threshold is not rejected — it is added with empty band code, zero phase and
zero Doppler — a fresh row added with a non-primary band code stores the
observables in the second-band columns, and serialization places them in the
second-band fields of the data line. -/
theorem c10_low_freq_second_band (iz : Bool) (fbn : ℚ) (m : RawMeas) (cf : ℚ)
    (h1 : m.ConstellationType = CONSTELLATION_GPS)
    (h2 : m.CarrierFrequencyHz = some cf)
    (h3 : cf ≤ 1100000000) :
    (∃ v, c1_303 iz fbn m = some v ∧
      (processRecord iz fbn m).2
        = RecStep.add "" ("G" ++ pyFmt02d m.Svid) v m.Cn0DbHz 0 0) ∧
    (∀ (b : V303.RinexBatch) (svid c s l d : String), svid ∉ b.svids →
      (b.add "" svid c s l d)
        = { b with svids := b.svids ++ [svid],
                   c1 := b.c1 ++ [""], s1 := b.s1 ++ [""],
                   l1 := b.l1 ++ [""], d1 := b.d1 ++ [""],
                   c2 := b.c2 ++ [c], s2 := b.s2 ++ [s],
                   l2 := b.l2 ++ [l], d2 := b.d2 ++ [d] }) ∧
    (∀ (e : DateTime) (c s l d : String),
      ((V303.RinexBatch.mkEmpty e).add "" "G05" c s l d).print
        = (V303.fmtEpochHeader e 1 ++ "\n"
            ++ V303.fmtDataLine "G05" "" "" "" "" c l d s, [])) := by
  refine ⟨?_, ?_, ?_⟩
  · have ht := tRxNanos_gps fbn m h1
    obtain ⟨v, hv⟩ : ∃ v, c1_303 iz fbn m = some v := by simp [c1_303, ht]
    have hf1 : ¬ ((1500000000:ℚ) < cf) := by linarith
    have hf2 : ¬ ((1200000000:ℚ) < cf) := by linarith
    have hf3 : ¬ ((1100000000:ℚ) < cf) := by linarith
    have hcls : classify303 v (m.CarrierFrequencyHz.getD 2000000000) m
        = ClsResult.ok "" ("G" ++ pyFmt02d m.Svid) 0 0 := by
      simp [classify303, h1, h2, hf1, hf2, hf3]
    refine ⟨v, hv, ?_⟩
    by_cases ha : checkAdrState m.AccumulatedDeltaRangeState = true <;>
      simp [processRecord, hv, hcls, ha]
  · intro b svid c s l d h
    simp only [V303.RinexBatch.add, findSv_eq_none svid b.svids h]
    rw [if_neg (by decide : ¬ (("":String) = "L1" ∨ ("":String) = "E1" ∨ ("":String) = "B1"))]
  · intro e c s l d
    have hadd : (V303.RinexBatch.mkEmpty e).add "" "G05" c s l d
        = ⟨e, ["G05"], [""], [c], [""], [l], [""], [s], [""], [d]⟩ := by
      simp only [V303.RinexBatch.add, V303.RinexBatch.mkEmpty, V303.findSv]
      rw [if_neg (by decide : ¬ (("":String) = "L1" ∨ ("":String) = "E1" ∨ ("":String) = "B1"))]
      rfl
    rw [hadd]
    have hrep : V303.hasRepeated ["G05"] = false := by decide
    have hg : 'G' ∈ "G05".data := by decide
    have hc : 'C' ∉ "G05".data := by decide
    have he : 'E' ∉ "G05".data := by decide
    have hr : 'R' ∉ "G05".data := by decide
    have hj : 'J' ∉ "G05".data := by decide
    simp [V303.RinexBatch.print, V303.RinexBatch.blockData,
      V303.RinexBatch.dataLine, hrep, hg, hc, he, hr, hj,
      List.range_succ, List.range_zero]

/-- A low-frequency GPS record for the C10 witness. -/
def mC10 : RawMeas :=
  { m0 with CarrierFrequencyHz := some 1000000000, Cn0DbHz := 42 }

/-- Witness for `c10_low_freq_second_band` at a concrete 1 GHz GPS record. -/
theorem c10_low_freq_second_band_witness :
    mC10.ConstellationType = CONSTELLATION_GPS ∧
    mC10.CarrierFrequencyHz = some 1000000000 ∧
    ((1000000000:ℚ) ≤ 1100000000) ∧
    ∃ v, c1_303 false 0 mC10 = some v ∧
      (processRecord false 0 mC10).2
        = RecStep.add "" ("G" ++ pyFmt02d mC10.Svid) v mC10.Cn0DbHz 0 0 :=
  ⟨rfl, rfl, by norm_num,
   (c10_low_freq_second_band false 0 mC10 1000000000 rfl rfl (by norm_num)).1⟩

/-- Helper: `digitChar` never yields a newline. -/
theorem digitChar_ne_nl (m : ℕ) : digitChar m ≠ '\n' := by
  by_cases h : m < 10
  · interval_cases m <;> decide
  · rw [digitChar, List.getD_eq_default]
    · decide
    · simpa using not_lt.mp h

/-- Helper: `natStr` prints digits only, never a newline. -/
theorem nl_notin_natStr (n : ℕ) : '\n' ∉ (natStr n).data := by
  induction n using Nat.strong_induction_on with
  | _ n ih =>
    rw [natStr]
    split_ifs with h
    · intro hmem
      exact digitChar_ne_nl n (List.mem_singleton.mp hmem).symm
    · rw [String.data_append]
      intro hmem
      rcases List.mem_append.mp hmem with hm | hm
      · exact ih (n / 10) (Nat.div_lt_self (by omega) (by omega)) hm
      · exact digitChar_ne_nl (n % 10) (List.mem_singleton.mp hm).symm

/-- Zero padding never introduces a newline. -/
theorem nl_notin_padZero (w n : ℕ) : '\n' ∉ (padZero w n).data := by
  rw [padZero, String.data_append]
  intro hmem
  rcases List.mem_append.mp hmem with hm | hm
  · exact by simpa using (List.mem_replicate.mp hm).2
  · exact nl_notin_natStr n hm

/-- Right justification never introduces a newline. -/
theorem nl_notin_rjust (w : ℕ) (s : String) (h : '\n' ∉ s.data) :
    '\n' ∉ (rjust w s).data := by
  rw [rjust, String.data_append]
  intro hmem
  rcases List.mem_append.mp hmem with hm | hm
  · exact by simpa using (List.mem_replicate.mp hm).2
  · exact h hm

/-- The 3.03 epoch line contains no newline: the modern schema emits no
satellite-id continuation lines. -/
theorem nl_notin_fmtEpochHeader (e : DateTime) (n : ℕ) :
    '\n' ∉ (V303.fmtEpochHeader e n).data := by
  have hy := nl_notin_padZero 4 e.year
  have hmo := nl_notin_padZero 2 e.month
  have hd := nl_notin_padZero 2 e.day
  have hh := nl_notin_padZero 2 e.hour
  have hmi := nl_notin_padZero 2 e.minute
  have hs := nl_notin_padZero 2 e.second
  have hus := nl_notin_padZero 6 e.micro
  have hrj : '\n' ∉ (rjust 3 (natStr n)).data := nl_notin_rjust 3 _ (nl_notin_natStr n)
  have hl1 : '\n' ∉ "> ".data := by decide
  have hl2 : '\n' ∉ " ".data := by decide
  have hl3 : '\n' ∉ ".".data := by decide
  have hl4 : '\n' ∉ "   0".data := by decide
  simp [V303.fmtEpochHeader, String.data_append, hy, hmo, hd, hh, hmi, hs,
    hus, hrj, hl1, hl2, hl3, hl4]

/-- Concatenation of a list of strings. -/
def strJoin : List String → String
  | [] => ""
  | s :: t => s ++ strJoin t

/-- A guarded string-appending fold is the concatenation of the lines of the
filtered list, in list order. -/
theorem foldl_filter_append (p : ℕ → Bool) (f : ℕ → String) :
    ∀ (l : List ℕ) (init : String),
      l.foldl (fun acc i => if p i then acc ++ f i else acc) init
        = init ++ strJoin ((l.filter p).map f) := by
  intro l
  induction l with
  | nil => intro init; simp [strJoin]
  | cons a t ih =>
    intro init
    by_cases hp : p a
    · simp only [List.foldl_cons, List.filter_cons, hp, if_pos, if_true,
        List.map_cons, strJoin, ih]
      rw [String.append_assoc]
    · simp only [List.foldl_cons, List.filter_cons, hp, if_neg, if_false,
        Bool.false_eq_true, ih]

/-- The rows of a batch whose satellite id contains `letter`, in row order. -/
def V303.RinexBatch.blockRows (b : V303.RinexBatch) (letter : Char) : List ℕ :=
  (List.range b.svids.length).filter
    fun i => (b.svids.getD i "").data.contains letter

/-- Claim C9: for a batch without repeated satellite ids the 3.03 serializer
emits the epoch line followed by the data lines grouped by constellation in
the fixed order G, C, E, R, J (GPS, BeiDou, Galileo, GLONASS, QZSS), each
block in row (first-added) order, and the epoch line holds no newline — no
satellite-id continuation lines exist. -/
theorem c9_modern_block_order (b : V303.RinexBatch)
    (h : ∀ sat ∈ b.svids, b.svids.count sat ≤ 1) :
    (b.print).1
      = V303.fmtEpochHeader b.epoch b.svids.length ++ "\n"
        ++ strJoin ((b.blockRows 'G').map b.dataLine)
        ++ strJoin ((b.blockRows 'C').map b.dataLine)
        ++ strJoin ((b.blockRows 'E').map b.dataLine)
        ++ strJoin ((b.blockRows 'R').map b.dataLine)
        ++ strJoin ((b.blockRows 'J').map b.dataLine)
    ∧ '\n' ∉ (V303.fmtEpochHeader b.epoch b.svids.length).data := by
  have hrep : V303.hasRepeated b.svids = false := by
    rw [V303.hasRepeated, List.any_eq_false]
    intro x hx
    simpa using not_lt.mpr (h x hx)
  refine ⟨?_, nl_notin_fmtEpochHeader b.epoch b.svids.length⟩
  simp only [V303.RinexBatch.print, hrep, Bool.false_eq_true, if_false,
    V303.RinexBatch.blockData, V303.RinexBatch.blockRows, foldl_filter_append]
  simp [String.append_assoc]

/-- A GLONASS record with PRN 1 for the C8 witness. -/
def mC8w : RawMeas :=
  { m0 with
    ConstellationType := 3
    Svid := 1
    CarrierFrequencyHz := some 1602000000 }

/-- Witness for `c8_amended` at GLONASS PRN 1. -/
theorem c8_amended_witness :
    mC8w.ConstellationType = CONSTELLATION_GLONASS ∧
    (1:ℤ) ≤ mC8w.Svid ∧ mC8w.Svid ≤ 24 ∧
    ((pyGet GLN_LIST (mC8w.Svid - 1)).isSome = true ∧
     (processRecord false 0 mC8w).2 ≠ RecStep.err) :=
  ⟨rfl, by decide, by decide,
   c8_amended false 0 mC8w rfl (by decide) (by decide)⟩

/-- A duplicate-free two-satellite batch (GLONASS row added first) for the
C9 witness. -/
def bC9 : V303.RinexBatch :=
  { epoch := e0, svids := ["R01", "G02"], c1 := ["1", "2"], c2 := ["", ""],
    l1 := ["3", "4"], l2 := ["", ""], s1 := ["5", "6"], s2 := ["", ""],
    d1 := ["7", "8"], d2 := ["", ""] }

/-- Witness for `c9_modern_block_order` on a concrete batch whose GLONASS
row was added before its GPS row. -/
theorem c9_modern_block_order_witness :
    (∀ sat ∈ bC9.svids, bC9.svids.count sat ≤ 1) ∧
    (bC9.print).1
      = V303.fmtEpochHeader bC9.epoch bC9.svids.length ++ "\n"
        ++ strJoin ((bC9.blockRows 'G').map bC9.dataLine)
        ++ strJoin ((bC9.blockRows 'C').map bC9.dataLine)
        ++ strJoin ((bC9.blockRows 'E').map bC9.dataLine)
        ++ strJoin ((bC9.blockRows 'R').map bC9.dataLine)
        ++ strJoin ((bC9.blockRows 'J').map bC9.dataLine) ∧
    '\n' ∉ (V303.fmtEpochHeader bC9.epoch bC9.svids.length).data :=
  ⟨by decide, (c9_modern_block_order bC9 (by decide)).1,
   (c9_modern_block_order bC9 (by decide)).2⟩

end AndroidRinex
